import Mathlib

/-!
# Verification of the QR-code generator against its specification

Shallow embedding of the core of the repository:

* `src/qr_generator.py` — URL composition (`generate_qr_codes`, lines 94–103),
  the PNG transparency step (lines 129–141), the raster canvas layout
  (lines 144–148 and 236–241), and the per-code generation loop
  (lines 100–120) whose encoding step can overflow.
* `src/pdf_compiler.py` — `compile_qr_codes_to_pdf` (lines 37–184): directory
  check, file collection and sorting, the always-drawn title page, per-artifact
  page sizing, and the Bool result convention.

Python integers are unbounded and every quantity here is a non-negative pixel
count, point size or length, so machine integers are modelled as `Nat`.
Python strings are modelled as Lean `String`s; the Python operations
`c in s`, `s.endswith(t)` and lexicographic string comparison (used by
`list.sort()`) are modelled by the executable functions `containsChar`,
`strEndsWith` and `strLe` below, which scan the underlying character list
exactly as Python compares code points.
-/

/-- Model of Python's `c in s` membership test on a string: true iff some
character of `s` equals `c`. -/
def containsChar (s : String) (c : Char) : Bool :=
  s.data.any (fun a => a == c)

/-- Model of Python's `s.endswith(post)`: true iff `post` is a suffix of `s`. -/
def strEndsWith (s post : String) : Bool :=
  post.data.isSuffixOf s.data

/-- Lexicographic comparison of character lists by code point, exactly the
comparison Python's `str` ordering (and hence `list.sort()` on strings)
performs. -/
def charListLe : List Char → List Char → Bool
  | [], _ => true
  | _ :: _, [] => false
  | a :: as, b :: bs =>
    if a < b then true else if b < a then false else charListLe as bs

/-- Model of Python's `x <= y` on strings: lexicographic by code point. -/
def strLe (x y : String) : Bool := charListLe x.data y.data

namespace QRGen

/-! ## URL Composer (`qr_generator.py`, lines 94–103)

```python
if '?' not in base_url:
    base_url += '?'
elif not base_url.endswith('?') and not base_url.endswith('&'):
    base_url += '&'
...
full_url = f"{base_url}{utm_param_name}={promo_code}"
```
-/

/-- The base-URL adjustment performed before the generation loop
(`qr_generator.py:94-98`): append `'?'` when the base contains no `'?'`,
else append `'&'` unless the base already ends in `'?'` or `'&'`. -/
def adjustBaseUrl (base_url : String) : String :=
  if !(containsChar base_url '?') then base_url ++ "?"
  else if !(strEndsWith base_url "?") && !(strEndsWith base_url "&") then base_url ++ "&"
  else base_url

/-- The full tracking URL built for one promo code (`qr_generator.py:103`):
`f"{base_url}{utm_param_name}={promo_code}"` applied to the adjusted base. -/
def composeFullUrl (base_url utm_param_name promo_code : String) : String :=
  adjustBaseUrl base_url ++ utm_param_name ++ "=" ++ promo_code

/-- The delimiter exactly as the specification's words describe it (spec §4.1):
`"?"` if the base contains no `"?"`, else `"&"` if the base does not already
end in `"?"` or `"&"`, else the empty string. Stated from the spec in order to
compare it with `composeFullUrl`, which is taken from the source. -/
def specDelimiter (base : String) : String :=
  if !(containsChar base '?') then "?"
  else if !(strEndsWith base "?") && !(strEndsWith base "&") then "&"
  else ""

/-! ## QR Symbol Encoder

`generate_qr_codes` (qr_generator.py:106-113) delegates matrix construction to
the external `qrcode` library at `error_correction=ERROR_CORRECT_L` with
`fit=True` (minimal fitting version); that library is not part of this
repository's sources, so the encoder is modelled from the specification. -/

/-- The error-correction level. The repository fixes the low-redundancy tier
`ERROR_CORRECT_L` (qr_generator.py:108). -/
inductive ECLevel
  | L
deriving DecidableEq

/-- Modelled from the spec: the fixed ascending sequence of supported symbol
versions' data capacities (data codewords, versions 1–40) at the
low-redundancy error-correction tier, per the standardized QR layout the spec
requires of the external encoder (spec §4.2). -/
def dataCodewordsL : List Nat :=
  [19, 34, 55, 80, 108, 136, 156, 194, 232, 274,
   324, 370, 428, 461, 523, 589, 647, 721, 795, 861,
   932, 1006, 1094, 1174, 1276, 1370, 1468, 1531, 1631, 1735,
   1843, 1955, 2071, 2191, 2306, 2434, 2566, 2702, 2812, 2956]

/-- Modelled from the spec: data capacity (in codewords) of a symbol version at
a given error-correction level. -/
def dataCodewords : ECLevel → List Nat
  | .L => dataCodewordsL

/-- Modelled from the spec: width of the QR byte-mode character-count field
(8 bits for versions 1–9, 16 bits for versions 10–40). -/
def charCountBits (version : Nat) : Nat :=
  if version ≤ 9 then 8 else 16

/-- Modelled from the spec: bit length of a payload of `payloadLen` characters
after QR byte-mode encoding (4-bit mode indicator, character-count field,
8 bits per byte). -/
def byteModeBitLength (payloadLen version : Nat) : Nat :=
  4 + charCountBits version + 8 * payloadLen

/-- Modelled from the spec: whether a payload's byte-mode encoding fits the
data capacity of `version` at level `level`. -/
def fitsVersion (level : ECLevel) (payloadLen version : Nat) : Bool :=
  byteModeBitLength payloadLen version ≤ 8 * (dataCodewords level).getD (version - 1) 0

/-- Modelled from the spec: the smallest supported symbol version (1–40) whose
data capacity at `level` accommodates the encoded payload, or `none` when even
the largest supported version does not suffice. -/
def minimalVersion (level : ECLevel) (payloadLen : Nat) : Option Nat :=
  ((List.range 40).find? (fun i => fitsVersion level payloadLen (i + 1))).map (· + 1)

/-- A produced QR symbol: the auto-selected version, its square side in modules
(`17 + 4·version`), and the encoded payload. The module-level layout (finder
patterns, masking) is realized by the external library and is determined by
these data. -/
structure QRSymbol where
  version : Nat
  side : Nat
  payload : String
deriving DecidableEq

/-- Failure of the encoding step: the payload exceeds the largest supported
version's capacity (the spec's `EncodingOverflow`; the `qrcode` library raises
`DataOverflowError` from `qr.make(fit=True)` at qr_generator.py:113). -/
inductive EncodingError
  | overflow
deriving DecidableEq

/-- Modelled from the spec: the QR Symbol Encoder. Selects the minimal fitting
version for the payload at the given error-correction level and fails with
`overflow` when no supported version fits (spec §4.2). -/
def encodeQR (level : ECLevel) (payload : String) : Except EncodingError QRSymbol :=
  match minimalVersion level payload.length with
  | some v => .ok ⟨v, 17 + 4 * v, payload⟩
  | none => .error .overflow

/-! ## The per-code generation loop (`qr_generator.py`, lines 100–120)

```python
for promo_code in promo_codes:
    full_url = f"{base_url}{utm_param_name}={promo_code}"
    qr = qrcode.QRCode(... error_correction=ERROR_CORRECT_L ...)
    qr.add_data(full_url)
    qr.make(fit=True)          # may raise DataOverflowError
    ...
    svg_img.save(svg_output_file)   # artifact written after a successful make
```

The loop body contains no exception handler, so an encoding failure propagates
out of `generate_qr_codes` and ends the run at that iteration. -/

/-- The generation loop over the promo codes, in input order: each iteration
composes the URL and encodes it; on success the code's artifact is recorded and
the loop continues, while an encoding failure propagates immediately (there is
no `try`/`except` around the loop body), abandoning all remaining codes. -/
def generateBatch (base_url utm_param_name : String) :
    List String → Except EncodingError (List String)
  | [] => .ok []
  | promo_code :: rest =>
    match encodeQR .L (composeFullUrl base_url utm_param_name promo_code) with
    | .error e => .error e
    | .ok _ =>
      match generateBatch base_url utm_param_name rest with
      | .error e => .error e
      | .ok written => .ok (promo_code :: written)

/-- The artifact files present on disk after the loop stops (normally or by a
propagating exception): each iteration writes its artifact only after its own
encode succeeded, and once an encode raises, no further iteration runs. -/
def writtenArtifacts (base_url utm_param_name : String) : List String → List String
  | [] => []
  | promo_code :: rest =>
    match encodeQR .L (composeFullUrl base_url utm_param_name promo_code) with
    | .error _ => []
    | .ok _ => promo_code :: writtenArtifacts base_url utm_param_name rest

/-- A 3000-character promo code whose tracking URL exceeds the capacity of the
largest supported QR version at level L. -/
def bigCode : String := String.mk (List.replicate 3000 'A')

/-! ## Raster Compositor (`qr_generator.py`, lines 123–245) -/

/-- One RGBA pixel as PIL's `getdata()` yields it: an `(R, G, B, A)` tuple of
channel values. -/
structure Pixel where
  r : Nat
  g : Nat
  b : Nat
  a : Nat
deriving DecidableEq

/-- The transparency loop (`qr_generator.py:133-141`): every pixel whose R, G
and B channels are each strictly above 240 becomes `(255, 255, 255, 0)` (fully
transparent); every other pixel is appended unchanged. -/
def transparencyStep : List Pixel → List Pixel
  | [] => []
  | item :: rest =>
    (if item.r > 240 ∧ item.g > 240 ∧ item.b > 240
      then Pixel.mk 255 255 255 0
      else item) :: transparencyStep rest

/-- `scale_factor = 8` (qr_generator.py:145): supersampling factor for the
label strip. -/
def scale_factor : Nat := 8

/-- `font_size = (png_size // 12) * scale_factor` (qr_generator.py:146). -/
def font_size (png_size : Nat) : Nat :=
  (png_size / 12) * scale_factor

/-- `text_height = font_size * 2` (qr_generator.py:147): supersampled height of
the label strip. -/
def text_height (png_size : Nat) : Nat :=
  font_size png_size * 2

/-- `spacing = 5` (qr_generator.py:237): fixed pixel gap between the QR region
and the label strip. -/
def spacing : Nat := 5

/-- Width and height of a raster image in pixels. -/
structure ImgDims where
  width : Nat
  height : Nat
deriving DecidableEq

/-- Dimensions of the QR raster after `png_img.resize((png_size, png_size))`
and RGBA conversion (qr_generator.py:127-130). -/
def qr_rgba_dims (png_size : Nat) : ImgDims :=
  ⟨png_size, png_size⟩

/-- Dimensions of the label strip after the supersampled render is downscaled
to `(png_size, text_height // scale_factor)` (qr_generator.py:231-234). -/
def text_img_dims (png_size : Nat) : ImgDims :=
  ⟨png_size, text_height png_size / scale_factor⟩

/-- Vertical paste position of the label strip on the combined canvas:
`(0, qr_rgba.height + spacing)` (qr_generator.py:241). -/
def text_paste_y (png_size : Nat) : Nat :=
  (qr_rgba_dims png_size).height + spacing

/-- Dimensions of the combined RGBA canvas
(`combined_height = qr_rgba.height + text_img.height + spacing`,
qr_generator.py:238-239). -/
def combined_dims (png_size : Nat) : ImgDims :=
  ⟨png_size, (qr_rgba_dims png_size).height + (text_img_dims png_size).height + spacing⟩

end QRGen

namespace PDFCompiler

/-! ## Document Assembler (`pdf_compiler.py`, `compile_qr_codes_to_pdf`)

The function checks the input directory (lines 37–40), collects the artifact
files and fails when none are found (lines 52–55), sorts them (line 58), reads
each artifact's own dimensions back from the persisted file (lines 64–99),
always draws a letter-sized title page (lines 112–157), then emits one page per
artifact with the page size set to that artifact's dimensions (lines 160–179),
and finally saves the document and returns `True` (lines 182–184); both error
paths return `False` before any canvas exists. -/

/-- One artifact file as the assembler sees it: the file path returned by
`glob` and the artifact's own width and height as read back from the persisted
file (`img.imageWidth`/`imageHeight` for PNG, `drawing.width`/`height` for
SVG; both are used unscaled, pdf_compiler.py:71-99). -/
structure Artifact where
  name : String
  width : Nat
  height : Nat
deriving DecidableEq

/-- `reportlab.lib.pagesizes.letter` in points: the fixed size of the title
page (pdf_compiler.py:115). -/
def letterSize : Nat × Nat := (612, 792)

/-- The metadata drawn on the title page: the title, the prepared-for name
(`none` makes the code draw a blank underscored line for manual entry,
pdf_compiler.py:138-150), and the artifact count shown as
`"Contains {len(qr_files)} QR Codes"`. -/
structure CoverContent where
  title : String
  preparedFor : Option String
  count : Nat
deriving DecidableEq

/-- One page of the produced document: the title page with its fixed size and
metadata, or an artifact page carrying exactly one artifact. -/
inductive Page
  | cover (size : Nat × Nat) (content : CoverContent)
  | art (a : Artifact)
deriving DecidableEq

/-- The physical size the canvas is set to for a page
(`c.setPageSize(...)`, pdf_compiler.py:115 and 162): the fixed letter size for
the title page, the artifact's own dimensions for an artifact page. -/
def pageSize : Page → Nat × Nat
  | .cover s _ => s
  | .art a => (a.width, a.height)

/-- `qr_files.sort()` (pdf_compiler.py:58): Python's stable lexicographic sort
of the collected file paths, modelled with `List.mergeSort` (stable) under the
code-point comparison `strLe`. -/
def sortFiles (files : List Artifact) : List Artifact :=
  files.mergeSort (fun x y => strLe x.name y.name)

/-- The two failure exits of `compile_qr_codes_to_pdf`: the input directory
does not exist (pdf_compiler.py:38-40), or no file of the selected format was
found in it (pdf_compiler.py:53-55, the spec's `EmptyInput`). -/
inductive AssemblyError
  | inputDirMissing
  | emptyInput
deriving DecidableEq

/-- `compile_qr_codes_to_pdf` (pdf_compiler.py:23-184). `input_dir_exists`
models `os.path.exists(input_dir)`; `qr_files` is the artifact list `glob`
collects from the directory, in arbitrary order. On success the produced
document is the title page — always present, carrying the title, the optional
prepared-for name and the artifact count — followed by one page per artifact in
sorted file order. -/
def compile_qr_codes_to_pdf (input_dir_exists : Bool) (qr_files : List Artifact)
    (prepared_for : Option String) (title : String) :
    Except AssemblyError (List Page) :=
  if input_dir_exists = false then .error .inputDirMissing
  else if qr_files = [] then .error .emptyInput
  else .ok (Page.cover letterSize ⟨title, prepared_for, qr_files.length⟩ ::
    (sortFiles qr_files).map Page.art)

/-- The Python function's Bool return value: `False` on both error exits
(pdf_compiler.py:40 and 55), `True` only after `c.save()` (pdf_compiler.py:184). -/
def compileReturn (input_dir_exists : Bool) (qr_files : List Artifact)
    (prepared_for : Option String) (title : String) : Bool :=
  (compile_qr_codes_to_pdf input_dir_exists qr_files prepared_for title).isOk

/-- Whether a document file exists at the output path afterwards:
`canvas.Canvas` buffers in memory and only `c.save()` (pdf_compiler.py:182)
writes the file, and both error exits return before the canvas is created, so a
file is created exactly on the success path. -/
def fileCreated (input_dir_exists : Bool) (qr_files : List Artifact)
    (prepared_for : Option String) (title : String) : Bool :=
  (compile_qr_codes_to_pdf input_dir_exists qr_files prepared_for title).isOk

/-- Concrete artifact with a lexicographically small name, for concrete runs. -/
def artA : Artifact := ⟨"output/svg/ALPHA.svg", 290, 290⟩

/-- Concrete artifact with a lexicographically larger name, for concrete runs. -/
def artB : Artifact := ⟨"output/svg/BRAVO.svg", 410, 330⟩

end PDFCompiler

/-! ## Helper lemmas -/

theorem charListLe_total : ∀ (a b : List Char), charListLe a b || charListLe b a
  | [], b => by cases b <;> simp [charListLe]
  | _ :: _, [] => by simp [charListLe]
  | a :: as, b :: bs => by
    simp only [charListLe]
    rcases lt_trichotomy a b with h | h | h
    · simp [h]
    · subst h
      simp only [lt_irrefl, if_false]
      exact charListLe_total as bs
    · simp [h, lt_asymm h]

theorem charListLe_trans : ∀ (a b c : List Char),
    charListLe a b → charListLe b c → charListLe a c
  | [], _, _, _, _ => rfl
  | _ :: _, [], _, h1, _ => by simp [charListLe] at h1
  | _ :: _, _ :: _, [], _, h2 => by simp [charListLe] at h2
  | a :: as, b :: bs, c :: cs, h1, h2 => by
    simp only [charListLe] at h1 h2 ⊢
    rcases lt_trichotomy a b with hab | hab | hab
    · rcases lt_trichotomy b c with hbc | hbc | hbc
      · simp [lt_trans hab hbc]
      · subst hbc; simp [hab]
      · simp [lt_asymm hbc, hbc] at h2
    · subst hab
      rcases lt_trichotomy a c with hac | hac | hac
      · simp [hac]
      · subst hac
        simp only [lt_irrefl, if_false] at h1 h2 ⊢
        exact charListLe_trans as bs cs h1 h2
      · simp [lt_asymm hac, hac] at h2
    · simp [lt_asymm hab, hab] at h1

theorem strLe_total (x y : String) : strLe x y || strLe y x :=
  charListLe_total x.data y.data

theorem strLe_trans {x y z : String} (h1 : strLe x y) (h2 : strLe y z) : strLe x z :=
  charListLe_trans x.data y.data z.data h1 h2

namespace QRGen

theorem transparencyStep_eq_map (data : List Pixel) :
    transparencyStep data =
      data.map (fun item =>
        if item.r > 240 ∧ item.g > 240 ∧ item.b > 240 then Pixel.mk 255 255 255 0 else item) := by
  induction data with
  | nil => rfl
  | cons x xs ih => simp [transparencyStep, ih]

theorem bigCode_length : bigCode.length = 3000 := by
  unfold bigCode
  rw [String.length_mk, List.length_replicate]

theorem adjustBaseUrl_example :
    adjustBaseUrl "https://example.com/promo" = "https://example.com/promo" ++ "?" := rfl

theorem big_url_length :
    (composeFullUrl "https://example.com/promo" "promo" bigCode).length = 3032 := by
  unfold composeFullUrl
  rw [adjustBaseUrl_example]
  simp only [String.length_append, bigCode_length]
  decide

theorem fitsVersion_false (level : ECLevel) (len v : Nat)
    (hlen : 2954 ≤ len) (hv : v ≤ 40) :
    fitsVersion level len v = false := by
  cases level
  simp only [fitsVersion, dataCodewords, byteModeBitLength, charCountBits]
  by_cases h9 : v ≤ 9
  · have hsmall : ∀ j, j < 9 → dataCodewordsL.getD j 0 ≤ 232 := by decide
    have h0 : dataCodewordsL.getD (v - 1) 0 ≤ 232 := hsmall (v - 1) (by omega)
    rw [decide_eq_false_iff_not, if_pos h9]
    omega
  · have hbig : ∀ j, j < 40 → dataCodewordsL.getD j 0 ≤ 2956 := by decide
    have h0 : dataCodewordsL.getD (v - 1) 0 ≤ 2956 := hbig (v - 1) (by omega)
    rw [decide_eq_false_iff_not, if_neg h9]
    omega

theorem encodeQR_overflow (level : ECLevel) (payload : String)
    (h : 2954 ≤ payload.length) :
    encodeQR level payload = .error .overflow := by
  have hnone : minimalVersion level payload.length = none := by
    unfold minimalVersion
    have hfind : (List.range 40).find?
        (fun i => fitsVersion level payload.length (i + 1)) = none := by
      rw [List.find?_eq_none]
      intro i hi
      rw [fitsVersion_false level _ _ h (by have := List.mem_range.mp hi; omega)]
      simp
    rw [hfind]
    rfl
  unfold encodeQR
  rw [hnone]

theorem encodeQR_big :
    encodeQR .L (composeFullUrl "https://example.com/promo" "promo" bigCode) =
      .error .overflow :=
  encodeQR_overflow _ _ (by rw [big_url_length]; decide)

end QRGen

/-! ## Claim theorems -/

/-- C1: for every non-empty base URL `b`, non-empty parameter name `p` and
promo code `c`, the URL Composer returns exactly
`b ++ specDelimiter b ++ p ++ "=" ++ c`, where `specDelimiter` is the spec's
delimiter rule; no other characters are inserted and the code `c` appears
verbatim (no URL-escaping). -/
theorem QRGen.urlComposer_contract (b p c : String) (_hb : b ≠ "") (_hp : p ≠ "") :
    QRGen.composeFullUrl b p c = b ++ QRGen.specDelimiter b ++ p ++ "=" ++ c := by
  unfold QRGen.composeFullUrl QRGen.adjustBaseUrl QRGen.specDelimiter
  by_cases h1 : containsChar b '?' <;>
    by_cases h2 : strEndsWith b "?" <;>
      by_cases h3 : strEndsWith b "&" <;>
        simp [h1, h2, h3, String.append_assoc]

/-- C1 witness: the contract evaluated at the spec's scenario input
(base `"https://example.com/promo"`, parameter `"promo"`, code `"SAVE10"`). -/
theorem QRGen.urlComposer_contract_witness :
    ("https://example.com/promo" : String) ≠ "" ∧ ("promo" : String) ≠ "" ∧
      QRGen.composeFullUrl "https://example.com/promo" "promo" "SAVE10" =
        "https://example.com/promo" ++ QRGen.specDelimiter "https://example.com/promo" ++
          "promo" ++ "=" ++ "SAVE10" :=
  ⟨by decide, by decide,
    QRGen.urlComposer_contract "https://example.com/promo" "promo" "SAVE10"
      (by decide) (by decide)⟩

/-- C7: in the transparency step, every pixel whose R, G and B channels are
each strictly greater than 240 becomes fully transparent (`(255,255,255,0)`,
alpha = 0), and every other pixel is kept unchanged; the image's pixel count is
preserved. -/
theorem QRGen.transparency_threshold (data : List QRGen.Pixel) (k : Nat) (px : QRGen.Pixel)
    (h : data[k]? = some px) :
    (QRGen.transparencyStep data).length = data.length ∧
    (240 < px.r ∧ 240 < px.g ∧ 240 < px.b →
      (QRGen.transparencyStep data)[k]? = some (QRGen.Pixel.mk 255 255 255 0)) ∧
    (¬ (240 < px.r ∧ 240 < px.g ∧ 240 < px.b) →
      (QRGen.transparencyStep data)[k]? = some px) := by
  rw [QRGen.transparencyStep_eq_map]
  refine ⟨by simp, ?_, ?_⟩ <;> intro hcond <;> simp [h, hcond]

/-- C7 witness: a near-white pixel `(250,250,250,255)` becomes transparent
while the black pixel `(10,20,30,255)` of the same image is kept unchanged. -/
theorem QRGen.transparency_threshold_witness :
    (QRGen.transparencyStep
        [QRGen.Pixel.mk 250 250 250 255, QRGen.Pixel.mk 10 20 30 255]).length = 2 ∧
    ((240 < 250 ∧ 240 < 250 ∧ 240 < 250 →
      (QRGen.transparencyStep
          [QRGen.Pixel.mk 250 250 250 255, QRGen.Pixel.mk 10 20 30 255])[0]? =
        some (QRGen.Pixel.mk 255 255 255 0)) ∧
    (¬ (240 < 250 ∧ 240 < 250 ∧ 240 < 250) →
      (QRGen.transparencyStep
          [QRGen.Pixel.mk 250 250 250 255, QRGen.Pixel.mk 10 20 30 255])[0]? =
        some (QRGen.Pixel.mk 250 250 250 255))) ∧
    ((240 < 10 ∧ 240 < 20 ∧ 240 < 30 →
      (QRGen.transparencyStep
          [QRGen.Pixel.mk 250 250 250 255, QRGen.Pixel.mk 10 20 30 255])[1]? =
        some (QRGen.Pixel.mk 255 255 255 0)) ∧
    (¬ (240 < 10 ∧ 240 < 20 ∧ 240 < 30) →
      (QRGen.transparencyStep
          [QRGen.Pixel.mk 250 250 250 255, QRGen.Pixel.mk 10 20 30 255])[1]? =
        some (QRGen.Pixel.mk 10 20 30 255))) :=
  ⟨(QRGen.transparency_threshold _ 0 (QRGen.Pixel.mk 250 250 250 255) rfl).1,
   (QRGen.transparency_threshold _ 0 (QRGen.Pixel.mk 250 250 250 255) rfl).2,
   (QRGen.transparency_threshold _ 1 (QRGen.Pixel.mk 10 20 30 255) rfl).2⟩

/-- C8: for every target size `S`, the combined raster canvas has width exactly
`S`, its QR region is exactly `S×S`, the label strip is pasted `5` pixels below
the QR region, and the total height is `S + 5 + label_height`, where the label
strip's native-resolution height `label_height` equals `2 * (S / 12)` (twice
the native font size derived from `S`). -/
theorem QRGen.raster_canvas_layout (S : Nat) :
    (QRGen.combined_dims S).width = S ∧
    QRGen.qr_rgba_dims S = QRGen.ImgDims.mk S S ∧
    QRGen.text_paste_y S = S + 5 ∧
    (QRGen.combined_dims S).height = S + 5 + (QRGen.text_img_dims S).height ∧
    (QRGen.text_img_dims S).height = 2 * (S / 12) := by
  refine ⟨rfl, rfl, rfl, ?_, ?_⟩
  · simp only [QRGen.combined_dims, QRGen.qr_rgba_dims, QRGen.text_img_dims, QRGen.spacing]
    omega
  · simp only [QRGen.text_img_dims, QRGen.text_height, QRGen.font_size, QRGen.scale_factor]
    omega

/-- C9: the QR Symbol Encoder is deterministic: for every payload that fits the
configured error-correction level's capacity, two calls with the identical
payload and level produce identical symbols. -/
theorem QRGen.encoder_deterministic (level : QRGen.ECLevel) (payload : String)
    (_hfit : (QRGen.minimalVersion level payload.length).isSome = true)
    (m₁ m₂ : QRGen.QRSymbol)
    (h₁ : QRGen.encodeQR level payload = .ok m₁)
    (h₂ : QRGen.encodeQR level payload = .ok m₂) :
    m₁ = m₂ := by
  rw [h₁] at h₂
  exact Except.ok.inj h₂

/-- C9 witness: the scenario URL `"https://example.com/promo?promo=SAVE10"`
fits (version 3 is selected) and two evaluations of the encoder on it agree. -/
theorem QRGen.encoder_deterministic_witness :
    (QRGen.minimalVersion .L ("https://example.com/promo?promo=SAVE10" : String).length).isSome
        = true ∧
    QRGen.QRSymbol.mk 3 29 "https://example.com/promo?promo=SAVE10" =
      QRGen.QRSymbol.mk 3 29 "https://example.com/promo?promo=SAVE10" :=
  ⟨by decide,
    QRGen.encoder_deterministic .L "https://example.com/promo?promo=SAVE10" (by decide)
      (QRGen.QRSymbol.mk 3 29 "https://example.com/promo?promo=SAVE10")
      (QRGen.QRSymbol.mk 3 29 "https://example.com/promo?promo=SAVE10") rfl rfl⟩

/-- C2 counterexample: the claim that an `EncodingOverflow` on one code skips
only that code and continues with the rest fails. In the batch
`[bigCode, "OK"]`, the code `"OK"` alone encodes fine, yet when `bigCode`'s URL
overflows, the loop's uncaught exception aborts the run: no artifact is
produced, in particular none for `"OK"`. -/
theorem QRGen.overflow_skip_cex :
    QRGen.generateBatch "https://example.com/promo" "promo" [QRGen.bigCode, "OK"] =
      .error .overflow ∧
    QRGen.writtenArtifacts "https://example.com/promo" "promo" [QRGen.bigCode, "OK"] = [] ∧
    QRGen.generateBatch "https://example.com/promo" "promo" ["OK"] = .ok ["OK"] := by
  refine ⟨?_, ?_, ?_⟩
  · simp [QRGen.generateBatch, QRGen.encodeQR_big]
  · simp [QRGen.writtenArtifacts, QRGen.encodeQR_big]
  · rfl

/-- C2 as amended: an `EncodingOverflow` for one code aborts the whole run at
that code (the loop body has no exception handler), leaving the artifacts of
the codes processed before it on disk and processing none of the codes after
it — the failure is not isolated to the failing code. -/
theorem QRGen.overflow_aborts_batch (base_url utm_param_name : String)
    (pre post : List String) (c : String)
    (hpre : ∀ x ∈ pre, ∃ s,
      QRGen.encodeQR .L (QRGen.composeFullUrl base_url utm_param_name x) = .ok s)
    (hc : QRGen.encodeQR .L (QRGen.composeFullUrl base_url utm_param_name c) =
      .error .overflow) :
    QRGen.generateBatch base_url utm_param_name (pre ++ c :: post) = .error .overflow ∧
    QRGen.writtenArtifacts base_url utm_param_name (pre ++ c :: post) = pre := by
  induction pre with
  | nil =>
    constructor
    · simp [QRGen.generateBatch, hc]
    · simp [QRGen.writtenArtifacts, hc]
  | cons x xs ih =>
    obtain ⟨s, hs⟩ := hpre x (by simp)
    obtain ⟨ih1, ih2⟩ := ih (fun y hy => hpre y (by simp [hy]))
    constructor
    · simp [QRGen.generateBatch, hs, ih1]
    · simp [QRGen.writtenArtifacts, hs, ih2]

/-- C2 witness for the amended claim: in the batch `["OK", bigCode, "LATER"]`
the first code's artifact is written, then the overflow on `bigCode` aborts the
run, so `"LATER"` is never processed. -/
theorem QRGen.overflow_aborts_batch_witness :
    (∀ x ∈ ["OK"], ∃ s, QRGen.encodeQR .L
        (QRGen.composeFullUrl "https://example.com/promo" "promo" x) = .ok s) ∧
    QRGen.generateBatch "https://example.com/promo" "promo"
        (["OK"] ++ QRGen.bigCode :: ["LATER"]) = .error .overflow ∧
    QRGen.writtenArtifacts "https://example.com/promo" "promo"
        (["OK"] ++ QRGen.bigCode :: ["LATER"]) = ["OK"] := by
  have hpre : ∀ x ∈ ["OK"], ∃ s, QRGen.encodeQR .L
      (QRGen.composeFullUrl "https://example.com/promo" "promo" x) = .ok s := by
    intro x hx
    rw [List.mem_singleton] at hx
    subst hx
    exact ⟨_, rfl⟩
  have h := QRGen.overflow_aborts_batch "https://example.com/promo" "promo"
    ["OK"] ["LATER"] QRGen.bigCode hpre QRGen.encodeQR_big
  exact ⟨hpre, h.1, h.2⟩

namespace PDFCompiler

/-- The artifact-name comparison used by the sort is transitive. -/
theorem artLe_trans (a b c : Artifact) (h1 : strLe a.name b.name)
    (h2 : strLe b.name c.name) : strLe a.name c.name :=
  strLe_trans h1 h2

/-- The artifact-name comparison used by the sort is total. -/
theorem artLe_total (a b : Artifact) : strLe a.name b.name || strLe b.name a.name :=
  strLe_total a.name b.name

/-- On the success path, the produced document is the title page followed by
one page per artifact in sorted file order. -/
theorem compile_ok_shape (d : Bool) (files : List Artifact) (p : Option String)
    (t : String) (pages : List Page)
    (h : compile_qr_codes_to_pdf d files p t = .ok pages) :
    pages = Page.cover letterSize ⟨t, p, files.length⟩ :: (sortFiles files).map Page.art := by
  rw [compile_qr_codes_to_pdf] at h
  split at h
  · exact absurd h (by simp)
  · split at h
    · exact absurd h (by simp)
    · exact (Except.ok.inj h).symm

end PDFCompiler

unseal List.merge List.mergeSort in
/-- C3 counterexample: assembling two artifacts with no cover metadata supplied
(`prepared_for = none`, the default title) yields a document with 3 pages, not
the 2 pages the claim's formula `(1 if cover metadata present else 0) + N`
predicts — the title page is always drawn. -/
theorem PDFCompiler.page_count_cex :
    (PDFCompiler.compile_qr_codes_to_pdf true [PDFCompiler.artA, PDFCompiler.artB] none
        "QR Codes Collection").toOption.map List.length = some 3 ∧
    (PDFCompiler.compile_qr_codes_to_pdf true [PDFCompiler.artA, PDFCompiler.artB] none
        "QR Codes Collection").toOption.map List.length ≠ some 2 :=
  ⟨by decide, by decide⟩

/-- C3 as amended: for every assembled document built from N artifacts the
output page count equals N + 1 — the cover/title page is always emitted,
whether or not cover metadata (a prepared-for name) was supplied. -/
theorem PDFCompiler.page_count_eq_artifacts_succ (d : Bool)
    (files : List PDFCompiler.Artifact) (p : Option String) (t : String)
    (pages : List PDFCompiler.Page)
    (h : PDFCompiler.compile_qr_codes_to_pdf d files p t = .ok pages) :
    pages.length = files.length + 1 := by
  rw [PDFCompiler.compile_ok_shape d files p t pages h]
  simp [PDFCompiler.sortFiles]

/-- C3 witness: one artifact, no metadata: the produced document has 2 pages. -/
theorem PDFCompiler.page_count_eq_artifacts_succ_witness :
    (PDFCompiler.Page.cover PDFCompiler.letterSize ⟨"QR Codes Collection", none, 1⟩ ::
        (PDFCompiler.sortFiles [PDFCompiler.artA]).map PDFCompiler.Page.art).length =
      [PDFCompiler.artA].length + 1 :=
  PDFCompiler.page_count_eq_artifacts_succ true [PDFCompiler.artA] none
    "QR Codes Collection" _ rfl

unseal List.merge List.mergeSort in
/-- C4 counterexample: the assembler does reorder its input. Fed the files
`[artB, artA]` (names `.../BRAVO.svg` before `.../ALPHA.svg`), the emitted
artifact pages are `[artA, artB]` — sorted, not the fed order. -/
theorem PDFCompiler.input_order_cex :
    (PDFCompiler.compile_qr_codes_to_pdf true [PDFCompiler.artB, PDFCompiler.artA] none
        "QR Codes Collection").toOption =
      some [PDFCompiler.Page.cover PDFCompiler.letterSize ⟨"QR Codes Collection", none, 2⟩,
        PDFCompiler.Page.art PDFCompiler.artA, PDFCompiler.Page.art PDFCompiler.artB] ∧
    [PDFCompiler.Page.art PDFCompiler.artA, PDFCompiler.Page.art PDFCompiler.artB] ≠
      [PDFCompiler.Page.art PDFCompiler.artB, PDFCompiler.Page.art PDFCompiler.artA] :=
  ⟨by decide, by decide⟩

/-- C4 as amended: the Document Assembler itself sorts the collected artifact
files lexicographically by file path (`qr_files.sort()`) and emits the pages in
that sorted order — a permutation of the fed sequence in nondecreasing name
order — rather than in the fed order. -/
theorem PDFCompiler.pages_follow_sorted_order (d : Bool)
    (files : List PDFCompiler.Artifact) (p : Option String) (t : String)
    (pages : List PDFCompiler.Page)
    (h : PDFCompiler.compile_qr_codes_to_pdf d files p t = .ok pages) :
    pages = PDFCompiler.Page.cover PDFCompiler.letterSize ⟨t, p, files.length⟩ ::
      (PDFCompiler.sortFiles files).map PDFCompiler.Page.art ∧
    (PDFCompiler.sortFiles files).Perm files ∧
    List.Pairwise (fun x y => strLe x.name y.name = true) (PDFCompiler.sortFiles files) := by
  refine ⟨PDFCompiler.compile_ok_shape d files p t pages h, List.mergeSort_perm files _, ?_⟩
  unfold PDFCompiler.sortFiles
  exact List.sorted_mergeSort PDFCompiler.artLe_trans PDFCompiler.artLe_total files

/-- C4 witness for the amended claim, at the fed sequence `[artB, artA]` with
cover metadata `{title: "Spring Promo", prepared_for: "Acme Corp"}`. -/
theorem PDFCompiler.pages_follow_sorted_order_witness :
    (PDFCompiler.Page.cover PDFCompiler.letterSize ⟨"Spring Promo", some "Acme Corp", 2⟩ ::
        (PDFCompiler.sortFiles [PDFCompiler.artB, PDFCompiler.artA]).map PDFCompiler.Page.art) =
      PDFCompiler.Page.cover PDFCompiler.letterSize ⟨"Spring Promo", some "Acme Corp", 2⟩ ::
        (PDFCompiler.sortFiles [PDFCompiler.artB, PDFCompiler.artA]).map PDFCompiler.Page.art ∧
    (PDFCompiler.sortFiles [PDFCompiler.artB, PDFCompiler.artA]).Perm
      [PDFCompiler.artB, PDFCompiler.artA] ∧
    List.Pairwise (fun x y => strLe x.name y.name = true)
      (PDFCompiler.sortFiles [PDFCompiler.artB, PDFCompiler.artA]) :=
  PDFCompiler.pages_follow_sorted_order true [PDFCompiler.artB, PDFCompiler.artA]
    (some "Acme Corp") "Spring Promo" _ rfl

/-- C5: for every artifact of the assembled document, the page carrying it (the
`k`-th artifact of the document sequence sits on page `k+1`, after the title
page) has its physical page size set to exactly that artifact's own width and
height as read back from the persisted file — no scaling or letterboxing. -/
theorem PDFCompiler.page_size_matches_artifact (d : Bool)
    (files : List PDFCompiler.Artifact) (p : Option String) (t : String)
    (pages : List PDFCompiler.Page) (k : Nat) (a : PDFCompiler.Artifact)
    (h : PDFCompiler.compile_qr_codes_to_pdf d files p t = .ok pages)
    (ha : (PDFCompiler.sortFiles files)[k]? = some a) :
    pages[k + 1]? = some (PDFCompiler.Page.art a) ∧
    PDFCompiler.pageSize (PDFCompiler.Page.art a) = (a.width, a.height) := by
  refine ⟨?_, rfl⟩
  rw [PDFCompiler.compile_ok_shape d files p t pages h]
  simp [ha]

/-- C5 witness: with the single artifact `artA` (290×290 as read back from the
file), page 1 of the document carries it and is sized 290×290. -/
theorem PDFCompiler.page_size_matches_artifact_witness :
    (PDFCompiler.sortFiles [PDFCompiler.artA])[0]? = some PDFCompiler.artA ∧
    (PDFCompiler.Page.cover PDFCompiler.letterSize ⟨"QR Codes Collection", none, 1⟩ ::
        (PDFCompiler.sortFiles [PDFCompiler.artA]).map PDFCompiler.Page.art)[0 + 1]? =
      some (PDFCompiler.Page.art PDFCompiler.artA) ∧
    PDFCompiler.pageSize (PDFCompiler.Page.art PDFCompiler.artA) =
      (PDFCompiler.artA.width, PDFCompiler.artA.height) := by
  have ha : (PDFCompiler.sortFiles [PDFCompiler.artA])[0]? = some PDFCompiler.artA := by
    simp [PDFCompiler.sortFiles]
  have h := PDFCompiler.page_size_matches_artifact true [PDFCompiler.artA] none
    "QR Codes Collection" _ 0 PDFCompiler.artA rfl ha
  exact ⟨ha, h.1, h.2⟩

/-- C6: when the artifact sequence collected for the Document Assembler is
empty, assembly fails with the empty-input error and no document file is
created at the target output path. -/
theorem PDFCompiler.empty_input_fails (p : Option String) (t : String) :
    PDFCompiler.compile_qr_codes_to_pdf true [] p t = .error .emptyInput ∧
    PDFCompiler.fileCreated true [] p t = false :=
  ⟨rfl, rfl⟩

/-- C10: the Document Assembler signals failure by its Bool return value, not
by raising: a missing input directory and an empty artifact collection both
yield `False` with no file created at the output path, and the function returns
`True` exactly when a document was assembled and written. -/
theorem PDFCompiler.bool_result_convention (d : Bool)
    (files : List PDFCompiler.Artifact) (p : Option String) (t : String) :
    (PDFCompiler.compileReturn false files p t = false ∧
      PDFCompiler.fileCreated false files p t = false) ∧
    (PDFCompiler.compileReturn true [] p t = false ∧
      PDFCompiler.fileCreated true [] p t = false) ∧
    (PDFCompiler.compileReturn d files p t = true ↔
      ∃ pages, PDFCompiler.compile_qr_codes_to_pdf d files p t = .ok pages) ∧
    PDFCompiler.compileReturn d files p t = PDFCompiler.fileCreated d files p t := by
  refine ⟨⟨rfl, rfl⟩, ⟨rfl, rfl⟩, ?_, rfl⟩
  unfold PDFCompiler.compileReturn
  cases h : PDFCompiler.compile_qr_codes_to_pdf d files p t with
  | ok pages => exact iff_of_true rfl ⟨pages, rfl⟩
  | error e =>
    constructor
    · intro hh
      exact absurd hh (by simp [Except.isOk, Except.toBool])
    · rintro ⟨pages, hp⟩
      exact absurd hp (by simp)
